import Mathlib

/-!
Verification of the BBH HMS authentication/session core and the "safe
update" trigger.  The definitions below are a shallow embedding of the
TypeScript services (`AuthService`, `RolesGuard`, `UpdaterService`,
`AuditService`): promises become pure functions, thrown NestJS
exceptions become `Except HmsError`, the Prisma user table becomes a
`List User`, the Redis-backed session middleware becomes an association
list from session id to payload, and every external effect (argon2
verification, subprocess execution, audit writes) is recorded in an
explicit trace on the operation's outcome.
-/

namespace BBH

/-- NestJS exception kinds thrown by the services.  `badRequest` is
`BadRequestException`, `unauthorized` is `UnauthorizedException`,
`forbidden` is `ForbiddenException`, `internalServerError` is
`InternalServerErrorException`. -/
inductive HmsError where
  | badRequest (msg : String)
  | unauthorized (msg : String)
  | forbidden (msg : String)
  | internalServerError (msg : String)
deriving DecidableEq, Repr

/-- The `error.message` field read by catch blocks. -/
def HmsError.message : HmsError → String
  | .badRequest m => m
  | .unauthorized m => m
  | .forbidden m => m
  | .internalServerError m => m

/-- True exactly for `BadRequestException` (the user-facing validation
error class, which the spec's taxonomy calls `InvalidTarget` when raised
by mount-point validation). -/
def HmsError.isBadRequest : HmsError → Bool
  | .badRequest _ => true
  | _ => false

/-- The fixed `Role` enumeration from the Prisma schema (listed in the
spec's data model and used by `RolesGuard`). -/
inductive Role where
  | OWNER
  | MANAGER
  | FRONT_DESK
  | HOUSEKEEPING
  | KITCHEN
  | MAINTENANCE
deriving DecidableEq, Repr

/-- String form of a role, as it appears in the Prisma enum and therefore
in the `requiredRoles.join(', ')` message of `RolesGuard`. -/
def roleName : Role → String
  | .OWNER => "OWNER"
  | .MANAGER => "MANAGER"
  | .FRONT_DESK => "FRONT_DESK"
  | .HOUSEKEEPING => "HOUSEKEEPING"
  | .KITCHEN => "KITCHEN"
  | .MAINTENANCE => "MAINTENANCE"

/-- A row of the `User` table (the fields the auth core reads). -/
structure User where
  id : String
  email : String
  password_hash : String
  role : Role
  first_name : String
  last_name : String
  is_active : Bool
  last_login_at : Option Nat
deriving DecidableEq, Repr

/-- The session payload stored in Redis (`SessionUser` in auth.service). -/
structure SessionUser where
  id : String
  email : String
  role : Role
  firstName : String
  lastName : String
deriving DecidableEq, Repr

/-- One record handed to `AuditService.log`.  Opaque JSON snapshots are
embedded as key/value lists. -/
structure AuditLogInput where
  action : String
  resource : String
  resourceId : Option String := none
  oldValue : List (String × String) := []
  newValue : List (String × String) := []
  performedById : Option String := none
  ipAddress : Option String := none
  userAgent : Option String := none
deriving DecidableEq, Repr

/-- The Redis session store: association list from session id to the
stored payload, as managed by the fastify session middleware. -/
abbrev SessionStore := List (String × SessionUser)

/-- Look up the payload stored under a session id (`req.session.user`
after the middleware has loaded the session named by the cookie). -/
def sessionLookup (store : SessionStore) (sid : String) : Option SessionUser :=
  (store.find? (fun p => p.1 == sid)).map (fun p => p.2)

/-- Prisma `user.findUnique({ where: { email } })`. -/
def findByEmail (db : List User) (email : String) : Option User :=
  db.find? (fun u => u.email == email)

/-- Prisma `user.findUnique({ where: { id } })`. -/
def findById (db : List User) (id : String) : Option User :=
  db.find? (fun u => u.id == id)

/-- JS `String.prototype.toLowerCase()` as used on email input,
restricted to its ASCII action (emails in this system are ASCII). -/
def jsToLowerCase (s : String) : String :=
  String.mk (s.data.map (fun c => if c.isUpper then Char.ofNat (c.toNat + 32) else c))

/-- JS `String.prototype.trim()`: strip leading and trailing
whitespace. -/
def jsTrim (s : String) : String :=
  String.mk (((s.data.dropWhile Char.isWhitespace).reverse.dropWhile Char.isWhitespace).reverse)

/-- The fixed placeholder hash verified on the absent-user login path. -/
def PLACEHOLDER_HASH : String :=
  "$argon2id$v=19$m=65536,t=3,p=4$placeholder$placeholder"

/-- Everything observable about one `AuthService.login` call: the thrown
exception or returned `LoginResult`, the list of argon2 verifications
performed (hash, candidate password), the audit records written, the user
table after the `last_login_at` update, and the session write. -/
structure LoginOutcome where
  result : Except HmsError (SessionUser × String)
  verifies : List (String × String)
  audits : List AuditLogInput
  db : List User
  sessionWrite : Option (String × SessionUser)
deriving Repr

/-- `AuthService.login`.  `verify hash pw` is the argon2 oracle, `sid`
the store-generated session id, `now` the current time, `ip`/`ua` the
client context. -/
def login (db : List User) (verify : String → String → Bool)
    (email password : String) (sid : String) (now : Nat)
    (ip ua : Option String) : LoginOutcome :=
  let normalized := jsTrim (jsToLowerCase email)
  match findByEmail db normalized with
  | none =>
      { result := .error (.unauthorized "Invalid credentials")
        verifies := [(PLACEHOLDER_HASH, password)]
        audits := []
        db := db
        sessionWrite := none }
  | some user =>
      if user.is_active = false then
        { result := .error (.forbidden "Account has been deactivated")
          verifies := []
          audits := []
          db := db
          sessionWrite := none }
      else if verify user.password_hash password = false then
        { result := .error (.unauthorized "Invalid credentials")
          verifies := [(user.password_hash, password)]
          audits := [{ action := "USER_LOGIN_FAILED", resource := "User",
                       resourceId := some user.id, ipAddress := ip, userAgent := ua }]
          db := db
          sessionWrite := none }
      else
        let sessionUser : SessionUser :=
          { id := user.id, email := user.email, role := user.role,
            firstName := user.first_name, lastName := user.last_name }
        { result := .ok (sessionUser, sid)
          verifies := [(user.password_hash, password)]
          audits := [{ action := "USER_LOGIN", resource := "User",
                       resourceId := some user.id, performedById := some user.id,
                       ipAddress := ip, userAgent := ua }]
          db := db.map (fun u => if u.id == user.id then { u with last_login_at := some now } else u)
          sessionWrite := some (sid, sessionUser) }

/-- `AuthService.getSessionUser`: read the session payload, then
re-fetch the authoritative `User` row by id and return it only when it
exists and is active.  The `su.id == ""` branch is the JS falsiness
check `!sessionUser?.id`. -/
def getSessionUser (store : SessionStore) (sid : String) (db : List User) : Option User :=
  match sessionLookup store sid with
  | none => none
  | some su =>
      if su.id == "" then none
      else
        match findById db su.id with
        | none => none
        | some user => if user.is_active then some user else none

/-- Observable outcome of `AuthService.logout`: the session store after
`req.session.destroy()` and the audit records written. -/
structure LogoutOutcome where
  store : SessionStore
  audits : List AuditLogInput
deriving Repr

/-- `AuthService.logout`: read the payload, unconditionally destroy the
session (delete the store key), and audit `USER_LOGOUT` only when a
payload existed.  It never throws. -/
def logout (store : SessionStore) (sid : String) (ip ua : Option String) : LogoutOutcome :=
  match sessionLookup store sid with
  | some su =>
      { store := store.filter (fun p => !(p.1 == sid))
        audits := [{ action := "USER_LOGOUT", resource := "User",
                     resourceId := some su.id, performedById := some su.id,
                     ipAddress := ip, userAgent := ua }] }
  | none => { store := store.filter (fun p => !(p.1 == sid)), audits := [] }

/-- Observable outcome of `AuthService.revokeAllSessionsForUser`. -/
structure RevokeOutcome where
  store : SessionStore
  db : List User
  audits : List AuditLogInput
deriving Repr

/-- `AuthService.revokeAllSessionsForUser`: the body only logs a warning
and writes one audit record; it performs no session-store and no user
table operation, so both are threaded through unchanged. -/
def revokeAllSessionsForUser (store : SessionStore) (db : List User)
    (targetUserId performedById : String) (ipAddress : Option String) : RevokeOutcome :=
  { store := store
    db := db
    audits := [{ action := "USER_SESSIONS_REVOKED", resource := "User",
                 resourceId := some targetUserId, performedById := some performedById,
                 ipAddress := ipAddress }] }

/-- The external user store setting a user's active flag to false
(`prisma.user.update({ data: { is_active: false } })` performed by the
staff-deactivation caller). -/
def deactivateUser (db : List User) (uid : String) : List User :=
  db.map (fun u => if u.id == uid then { u with is_active := false } else u)

/-- `RolesGuard.canActivate`: `requiredRoles` is the reflected metadata
(`none` when the route carries no `@Roles` decorator), `user` is
`request.user` as attached by `AuthGuard`. -/
def canActivate (requiredRoles : Option (List Role)) (user : Option User) :
    Except HmsError Bool :=
  match requiredRoles with
  | none => .ok true
  | some roles =>
      if roles.length == 0 then .ok true
      else
        match user with
        | none => .error (.forbidden "Not authenticated")
        | some u =>
            if roles.contains u.role then .ok true
            else .error (.forbidden ("Access denied. Required roles: " ++
              String.intercalate ", " (roles.map roleName)))

/-- The single pre-approved update target directory. -/
def WEBSITE_MOUNT : String := "/mnt/website"

/-- Oracle for the filesystem and subprocess behaviour one
`UpdaterService` call observes: `resolve` is `path.resolve`, `accessOk`
is whether `fs.access` succeeds, `pullResult` is the
`git pull --ff-only` exec (error covers both non-zero exit and the 60s
timeout, carrying `error.message`), the `revParse*` fields are the two
`git rev-parse --short HEAD` runs and the branch query, and
`statusPorcelain` is `git status --porcelain`. -/
structure UpdaterEnv where
  resolve : String → String
  accessOk : String → Bool
  pullResult : Except String (String × String)
  revParseBefore : Except String String
  revParseAfter : Except String String
  revParseBranch : Except String String
  statusPorcelain : Except String String
  fetchHeadMtime : Option Nat

/-- `UpdaterService.validateMountPoint`: resolve the path, require exact
equality with `WEBSITE_MOUNT`, require it to be accessible, and require
a `.git` entry.  The inner catch rethrows `BadRequestException`s and
maps any other failure to the internal "not accessible" error. -/
def validateMountPoint (env : UpdaterEnv) (mountPath : String) : Except HmsError Unit :=
  let resolved := env.resolve mountPath
  if resolved != WEBSITE_MOUNT then
    .error (.badRequest "Invalid mount path")
  else if !(env.accessOk resolved) then
    .error (.internalServerError "Website mount point is not accessible")
  else if !(env.accessOk (resolved ++ "/.git")) then
    .error (.badRequest "Website directory is not a git repository")
  else .ok ()

/-- `UpdaterService.getGitCommit`: the exec's rejection is swallowed by
`.catch(() => ({ stdout: 'unknown' }))`, then the stdout is trimmed, so
the helper never throws. -/
def getGitCommit (r : Except String String) : String :=
  jsTrim (match r with
   | .ok out => out
   | .error _ => "unknown")

/-- `UpdaterService.getGitBranch`: same shape as `getGitCommit`. -/
def getGitBranch (r : Except String String) : String :=
  jsTrim (match r with
   | .ok out => out
   | .error _ => "unknown")

/-- `[stdout, stderr].filter(Boolean).join('\n').trim()`. -/
def pullOutput (stdout stderr : String) : String :=
  jsTrim (String.intercalate "\n" ([stdout, stderr].filter (fun s => s != "")))

/-- The `UpdateResult` returned on success. -/
structure UpdateResult where
  success : Bool
  output : String
  branch : String
  commit : String
  timestamp : Nat
deriving DecidableEq, Repr

/-- Everything observable about one `pullWebsiteUpdate` call: the thrown
exception or returned result, the in-progress flag after the call, the
audit records written, and the subprocess command lines invoked. -/
structure UpdateRunOutcome where
  result : Except HmsError UpdateResult
  isUpdating : Bool
  audits : List AuditLogInput
  execs : List String
deriving Repr

/-- `UpdaterService.pullWebsiteUpdate`.  `isUpdating` is the mutex flag
on entry.  If it is set the call throws before touching anything; else
the flag is set, the body runs under try/catch, the catch audits
`WEBSITE_UPDATE_FAILED` and rethrows as
`InternalServerErrorException('Update failed: ...')`, and the finally
clears the flag on every proceeding path. -/
def pullWebsiteUpdate (isUpdating : Bool) (env : UpdaterEnv)
    (performedById : String) (ipAddress : Option String) (now : Nat) : UpdateRunOutcome :=
  if isUpdating then
    { result := .error (.badRequest "An update is already in progress")
      isUpdating := true
      audits := []
      execs := [] }
  else
    match validateMountPoint env WEBSITE_MOUNT with
    | .error e =>
        { result := .error (.internalServerError ("Update failed: " ++ e.message))
          isUpdating := false
          audits := [{ action := "WEBSITE_UPDATE_FAILED", resource := "WebsiteSource",
                       newValue := [("error", e.message)],
                       performedById := some performedById, ipAddress := ipAddress }]
          execs := [] }
    | .ok _ =>
        let beforeCommit := getGitCommit env.revParseBefore
        match env.pullResult with
        | .error msg =>
            { result := .error (.internalServerError ("Update failed: " ++ msg))
              isUpdating := false
              audits := [{ action := "WEBSITE_UPDATE_FAILED", resource := "WebsiteSource",
                           newValue := [("error", msg)],
                           performedById := some performedById, ipAddress := ipAddress }]
              execs := ["git rev-parse --short HEAD", "git pull --ff-only"] }
        | .ok (stdout, stderr) =>
            let output := pullOutput stdout stderr
            let afterCommit := getGitCommit env.revParseAfter
            let branch := getGitBranch env.revParseBranch
            { result := .ok { success := true, output := output, branch := branch,
                              commit := afterCommit, timestamp := now }
              isUpdating := false
              audits := [{ action := "WEBSITE_UPDATE", resource := "WebsiteSource",
                           oldValue := [("commit", beforeCommit)],
                           newValue := [("commit", afterCommit), ("branch", branch),
                                        ("output", output)],
                           performedById := some performedById, ipAddress := ipAddress }]
              execs := ["git rev-parse --short HEAD", "git pull --ff-only",
                        "git rev-parse --short HEAD", "git rev-parse --abbrev-ref HEAD"] }

/-- The record returned by `getWebsiteStatus`. -/
structure WebsiteStatus where
  branch : String
  commit : String
  lastModified : Option Nat
  isClean : Bool
deriving DecidableEq, Repr

/-- `UpdaterService.getWebsiteStatus`: validate the mount point (errors
propagate directly here — there is no catch), then read branch, commit
and `git status --porcelain`, whose failure is swallowed to the empty
string by `.catch(() => '')`; `isClean` is whether that output is
empty. -/
def getWebsiteStatus (env : UpdaterEnv) : Except HmsError WebsiteStatus :=
  match validateMountPoint env WEBSITE_MOUNT with
  | .error e => .error e
  | .ok _ =>
      let branch := getGitBranch env.revParseBranch
      let commit := getGitCommit env.revParseAfter
      let statusOut :=
        match env.statusPorcelain with
        | .ok out => jsTrim out
        | .error _ => ""
      .ok { branch := branch, commit := commit,
            lastModified := env.fetchHeadMtime,
            isClean := statusOut == "" }

/-- Fixture: an active owner account. -/
def demoUser : User :=
  { id := "u1", email := "owner@hotel.com", password_hash := "hash1", role := .OWNER,
    first_name := "Ann", last_name := "Lee", is_active := true, last_login_at := none }

/-- Fixture: the session payload created for `demoUser`. -/
def demoSession : SessionUser :=
  { id := "u1", email := "owner@hotel.com", role := .OWNER,
    firstName := "Ann", lastName := "Lee" }

/-- Fixture: a store holding one live session for `demoUser`. -/
def demoStore : SessionStore := [("s1", demoSession)]

/-- Fixture: a user table holding only `demoUser`. -/
def demoDb : List User := [demoUser]

/-- Fixture: a deactivated account. -/
def demoInactiveUser : User :=
  { id := "u2", email := "gone@hotel.com", password_hash := "hash2", role := .FRONT_DESK,
    first_name := "Bo", last_name := "Kim", is_active := false, last_login_at := none }

/-- Fixture: a front-desk account for role-guard checks. -/
def demoFrontDesk : User :=
  { id := "u3", email := "desk@hotel.com", password_hash := "hash3", role := .FRONT_DESK,
    first_name := "Cy", last_name := "Roe", is_active := true, last_login_at := none }

/-- Deactivating a user rewrites exactly that user's row, so the re-fetch
by id sees the cleared flag. -/
theorem findById_deactivateUser (db : List User) (uid : String) :
    findById (deactivateUser db uid) uid =
      (findById db uid).map (fun u => { u with is_active := false }) := by
  unfold findById deactivateUser
  rw [List.find?_map]
  have hcomp : ((fun u : User => u.id == uid) ∘
      (fun u : User => if (u.id == uid) = true then { u with is_active := false } else u)) =
      (fun u : User => u.id == uid) := by
    funext u
    by_cases h : (u.id == uid) = true <;> simp [Function.comp, h]
  rw [hcomp]
  cases hf : db.find? (fun u => u.id == uid) with
  | none => rfl
  | some w =>
      have hp := List.find?_some hf
      simp [hp]
      intro hne
      exact absurd (by simpa using hp) hne

/-- Deleting a session key makes subsequent lookups of that key miss. -/
theorem sessionLookup_erase (store : SessionStore) (sid : String) :
    sessionLookup (store.filter (fun p => !(p.1 == sid))) sid = none := by
  have h : (store.filter (fun p => !(p.1 == sid))).find? (fun p => p.1 == sid) = none := by
    rw [List.find?_eq_none]
    intro x hx
    have hmem := List.mem_filter.mp hx
    simpa using hmem.2
  unfold sessionLookup
  rw [h]
  rfl

/-- Both branches of `logout` delete the session key. -/
theorem logout_store_eq (store : SessionStore) (sid : String) (ip ua : Option String) :
    (logout store sid ip ua).store = store.filter (fun p => !(p.1 == sid)) := by
  unfold logout
  cases sessionLookup store sid <;> rfl

/-- A `logout` that found no payload writes no audit record. -/
theorem logout_audits_of_none (store : SessionStore) (sid : String) (ip ua : Option String)
    (h : sessionLookup store sid = none) : (logout store sid ip ua).audits = [] := by
  unfold logout
  rw [h]

/-- A `logout` that found a payload writes one USER_LOGOUT record naming
the former occupant. -/
theorem logout_audits_of_some (store : SessionStore) (sid : String) (ip ua : Option String)
    (su : SessionUser) (h : sessionLookup store sid = some su) :
    (logout store sid ip ua).audits =
      [{ action := "USER_LOGOUT", resource := "User", resourceId := some su.id,
         performedById := some su.id, ipAddress := ip, userAgent := ua }] := by
  unfold logout
  rw [h]

/-- C1: `getSessionUser` returns a user only when the authoritative
record re-fetched by the session payload's id exists and is active, and
deactivating the payload's user makes the very next call return none
even while the session entry is still present in the store. -/
theorem getSessionUser_requires_active
    (store : SessionStore) (sid : String) (db : List User) :
    (∀ u, getSessionUser store sid db = some u →
        u.is_active = true ∧
        ∃ su, sessionLookup store sid = some su ∧ findById db su.id = some u) ∧
    (∀ su, sessionLookup store sid = some su →
        getSessionUser store sid (deactivateUser db su.id) = none) := by
  constructor
  · intro u hu
    unfold getSessionUser at hu
    cases hsu : sessionLookup store sid with
    | none => rw [hsu] at hu; exact absurd hu (by simp)
    | some su =>
        rw [hsu] at hu
        dsimp only at hu
        by_cases hid : (su.id == "") = true
        · rw [if_pos hid] at hu; exact absurd hu (by simp)
        · rw [if_neg hid] at hu
          cases hf : findById db su.id with
          | none => rw [hf] at hu; exact absurd hu (by simp)
          | some w =>
              rw [hf] at hu
              dsimp only at hu
              by_cases hact : w.is_active = true
              · rw [if_pos hact] at hu
                injection hu with hwu
                subst hwu
                exact ⟨hact, su, rfl, hf⟩
              · rw [if_neg hact] at hu; exact absurd hu (by simp)
  · intro su hsu
    unfold getSessionUser
    rw [hsu]
    dsimp only
    by_cases hid : (su.id == "") = true
    · rw [if_pos hid]
    · rw [if_neg hid]
      rw [findById_deactivateUser]
      cases findById db su.id <;> simp

/-- Witness for C1: deactivating the demo user makes the next read of
their still-present session return none. -/
theorem getSessionUser_requires_active_witness :
    getSessionUser demoStore "s1" (deactivateUser demoDb "u1") = none := by
  have h := (getSessionUser_requires_active demoStore "s1" demoDb).2 demoSession (by rfl)
  simpa using h

/-- C4: a login whose email matches no user performs exactly one argon2
verification, against the fixed placeholder hash, and fails with the
generic invalid-credentials error; the wrong-password path on an active
account also performs exactly one verification. -/
theorem login_dummy_hash_on_absent_user
    (db : List User) (verify : String → String → Bool)
    (email password sid : String) (now : Nat) (ip ua : Option String) :
    (findByEmail db (jsTrim (jsToLowerCase email)) = none →
        (login db verify email password sid now ip ua).verifies =
          [(PLACEHOLDER_HASH, password)] ∧
        (login db verify email password sid now ip ua).result =
          .error (.unauthorized "Invalid credentials")) ∧
    (∀ u, findByEmail db (jsTrim (jsToLowerCase email)) = some u → u.is_active = true →
        verify u.password_hash password = false →
        (login db verify email password sid now ip ua).verifies =
          [(u.password_hash, password)] ∧
        (login db verify email password sid now ip ua).verifies.length =
          [(PLACEHOLDER_HASH, password)].length) := by
  constructor
  · intro h
    simp [login, h]
  · intro u hu hact hverify
    simp [login, hu, hact, hverify]

/-- Witness for C4: an empty user table, so the email matches no user. -/
theorem login_dummy_hash_on_absent_user_witness :
    (login [] (fun _ _ => false) "ghost@hotel.com" "pw" "s9" 0 none none).verifies =
      [(PLACEHOLDER_HASH, "pw")] :=
  ((login_dummy_hash_on_absent_user [] (fun _ _ => false)
    "ghost@hotel.com" "pw" "s9" 0 none none).1 (by rfl)).1

/-- C5: a login against an existing but inactive account fails with the
deactivation error (a different exception kind from invalid
credentials) before any password verification; a wrong password on an
active account writes a USER_LOGIN_FAILED audit record and fails with
invalid credentials. -/
theorem login_inactive_distinct_and_failed_audit
    (db : List User) (verify : String → String → Bool)
    (email password sid : String) (now : Nat) (ip ua : Option String) :
    (∀ u, findByEmail db (jsTrim (jsToLowerCase email)) = some u → u.is_active = false →
        (login db verify email password sid now ip ua).result =
          .error (.forbidden "Account has been deactivated") ∧
        (login db verify email password sid now ip ua).verifies = []) ∧
    (∀ u, findByEmail db (jsTrim (jsToLowerCase email)) = some u → u.is_active = true →
        verify u.password_hash password = false →
        (login db verify email password sid now ip ua).audits =
          [{ action := "USER_LOGIN_FAILED", resource := "User",
             resourceId := some u.id, ipAddress := ip, userAgent := ua }] ∧
        (login db verify email password sid now ip ua).result =
          .error (.unauthorized "Invalid credentials")) ∧
    (∀ m₁ m₂ : String, HmsError.forbidden m₁ ≠ HmsError.unauthorized m₂) := by
  refine ⟨?_, ?_, ?_⟩
  · intro u hu hact
    simp [login, hu, hact]
  · intro u hu hact hverify
    simp [login, hu, hact, hverify]
  · intro m₁ m₂ h
    exact HmsError.noConfusion h

/-- Witness for C5: the demo inactive account is rejected with the
deactivation error. -/
theorem login_inactive_distinct_and_failed_audit_witness :
    (login [demoInactiveUser] (fun _ _ => true) "gone@hotel.com" "pw" "s9" 0 none none).result =
      .error (.forbidden "Account has been deactivated") :=
  ((login_inactive_distinct_and_failed_audit [demoInactiveUser] (fun _ _ => true)
    "gone@hotel.com" "pw" "s9" 0 none none).1 demoInactiveUser (by rfl) (by rfl)).1

/-- C6: `logout` unconditionally deletes the session (a subsequent
`getSessionUser` on the same id returns none), a second `logout` on the
now-absent session returns normally, changes nothing and writes no
audit record, and a USER_LOGOUT audit record is written exactly when a
payload existed. -/
theorem logout_unconditional_idempotent
    (store : SessionStore) (sid : String) (db : List User) (ip ua : Option String) :
    getSessionUser (logout store sid ip ua).store sid db = none ∧
    (logout (logout store sid ip ua).store sid ip ua).audits = [] ∧
    (logout (logout store sid ip ua).store sid ip ua).store = (logout store sid ip ua).store ∧
    (∀ su, sessionLookup store sid = some su →
        (logout store sid ip ua).audits =
          [{ action := "USER_LOGOUT", resource := "User", resourceId := some su.id,
             performedById := some su.id, ipAddress := ip, userAgent := ua }]) ∧
    (sessionLookup store sid = none → (logout store sid ip ua).audits = []) := by
  have herase : sessionLookup (logout store sid ip ua).store sid = none := by
    rw [logout_store_eq]
    exact sessionLookup_erase store sid
  have hfixed : ((logout store sid ip ua).store.filter (fun p => !(p.1 == sid)))
      = (logout store sid ip ua).store := by
    rw [logout_store_eq]
    exact List.filter_eq_self.mpr (fun a ha => (List.mem_filter.mp ha).2)
  refine ⟨?_, ?_, ?_, ?_, ?_⟩
  · unfold getSessionUser
    rw [herase]
  · exact logout_audits_of_none _ _ _ _ herase
  · rw [logout_store_eq]
    exact hfixed
  · intro su hsu
    exact logout_audits_of_some _ _ _ _ su hsu
  · intro hsu
    exact logout_audits_of_none _ _ _ _ hsu

/-- Witness for C6: the demo session's logout writes the USER_LOGOUT
record for its occupant. -/
theorem logout_unconditional_idempotent_witness :
    (logout demoStore "s1" none none).audits =
      [{ action := "USER_LOGOUT", resource := "User", resourceId := some "u1",
         performedById := some "u1", ipAddress := none, userAgent := none }] :=
  (logout_unconditional_idempotent demoStore "s1" demoDb none none).2.2.2.1 demoSession (by rfl)

/-- C7: with an authenticated caller attached to the request, a route
with no role metadata or an empty role list is allowed; a non-empty
role list allows the caller exactly when their role is a member, and a
non-member is rejected with a Forbidden error naming the required
roles. -/
theorem canActivate_role_membership (u : User) :
    canActivate none (some u) = .ok true ∧
    canActivate (some []) (some u) = .ok true ∧
    (∀ roles : List Role, roles ≠ [] →
        (u.role ∈ roles → canActivate (some roles) (some u) = .ok true) ∧
        (u.role ∉ roles → canActivate (some roles) (some u) =
            .error (.forbidden ("Access denied. Required roles: " ++
              String.intercalate ", " (roles.map roleName))))) := by
  refine ⟨rfl, rfl, ?_⟩
  intro roles hne
  have hlen : (roles.length == 0) = false := by
    simpa using fun h => hne (List.length_eq_zero.mp h)
  constructor
  · intro hmem
    simp [canActivate, hlen, List.contains, hmem]
  · intro hmem
    simp [canActivate, hlen, List.contains, hmem]

/-- Witness for C7: a FRONT_DESK caller is rejected by a MANAGER-only
route with the role named in the message, and a MANAGER caller passes. -/
theorem canActivate_role_membership_witness :
    canActivate (some [Role.MANAGER]) (some demoFrontDesk) =
      .error (.forbidden "Access denied. Required roles: MANAGER") ∧
    canActivate (some []) (some demoFrontDesk) = .ok true :=
  ⟨((canActivate_role_membership demoFrontDesk).2.2 [Role.MANAGER] (by simp)).2 (by decide),
   (canActivate_role_membership demoFrontDesk).2.1⟩

/-- C9: `revokeAllSessionsForUser` leaves the session store and the user
table untouched; its sole observable effect is one
USER_SESSIONS_REVOKED audit record. -/
theorem revokeAllSessionsForUser_frame (store : SessionStore) (db : List User)
    (targetUserId performedById : String) (ip : Option String) :
    (revokeAllSessionsForUser store db targetUserId performedById ip).store = store ∧
    (revokeAllSessionsForUser store db targetUserId performedById ip).db = db ∧
    (revokeAllSessionsForUser store db targetUserId performedById ip).audits =
      [{ action := "USER_SESSIONS_REVOKED", resource := "User",
         resourceId := some targetUserId, performedById := some performedById,
         ipAddress := ip }] :=
  ⟨rfl, rfl, rfl⟩

/-- C2: a call made while the in-progress flag is set fails at once with
the in-progress error, runs no subprocess and leaves the flag to the
call that owns it; a proceeding call ends with the flag cleared on every
exit path (validation failure, pull failure or timeout, success). -/
theorem pullWebsiteUpdate_single_flight (env : UpdaterEnv) (pid : String)
    (ip : Option String) (now : Nat) :
    ((pullWebsiteUpdate true env pid ip now).result =
        .error (.badRequest "An update is already in progress") ∧
      (pullWebsiteUpdate true env pid ip now).execs = [] ∧
      (pullWebsiteUpdate true env pid ip now).isUpdating = true) ∧
    (pullWebsiteUpdate false env pid ip now).isUpdating = false := by
  refine ⟨⟨rfl, rfl, rfl⟩, ?_⟩
  unfold pullWebsiteUpdate
  rw [if_neg Bool.false_ne_true]
  cases validateMountPoint env WEBSITE_MOUNT with
  | error e => rfl
  | ok u =>
      dsimp only
      cases env.pullResult with
      | error m => rfl
      | ok pr => cases pr with | mk o e => rfl

/-- Fixture environment: the mount point resolves to itself and is
accessible, but holds no `.git` entry; the subprocess oracles are
immaterial because validation fails first. -/
def noGitEnv : UpdaterEnv :=
  { resolve := fun p => p
    accessOk := fun p => p == WEBSITE_MOUNT
    pullResult := .ok ("Already up to date.", "")
    revParseBefore := .ok "1111111"
    revParseAfter := .ok "1111111"
    revParseBranch := .ok "main"
    statusPorcelain := .ok ""
    fetchHeadMtime := none }

/-- C3 counterexample: with the approved directory present but lacking
version-control metadata, the caller does not receive the InvalidTarget
(BadRequest) validation error — the catch-all rewraps it and the call
surfaces as an UpdateFailed internal server error. -/
theorem pullWebsiteUpdate_wraps_invalid_target :
    (pullWebsiteUpdate false noGitEnv "admin" none 0).result =
      .error (.internalServerError
        "Update failed: Website directory is not a git repository") ∧
    HmsError.isBadRequest
      (.internalServerError "Update failed: Website directory is not a git repository")
      = false ∧
    validateMountPoint noGitEnv WEBSITE_MOUNT =
      .error (.badRequest "Website directory is not a git repository") :=
  ⟨rfl, rfl, rfl⟩

/-- C3 amended: a `pullWebsiteUpdate` whose target directory fails
validation (wrong resolved path, missing directory, or missing
version-control metadata) invokes no subprocess and fails — but the
surfaced error is the UpdateFailed internal error wrapping the
validation message, because the catch-all rewraps the InvalidTarget
(BadRequest) raised by `validateMountPoint` for the wrong-path and
missing-metadata cases (a missing directory raises the internal
"not accessible" error even before wrapping). -/
theorem pullWebsiteUpdate_validation_failure
    (env : UpdaterEnv) (pid : String) (ip : Option String) (now : Nat) (e : HmsError)
    (h : validateMountPoint env WEBSITE_MOUNT = .error e) :
    (pullWebsiteUpdate false env pid ip now).execs = [] ∧
    (pullWebsiteUpdate false env pid ip now).result =
      .error (.internalServerError ("Update failed: " ++ e.message)) ∧
    (env.resolve WEBSITE_MOUNT ≠ WEBSITE_MOUNT →
        e = .badRequest "Invalid mount path") ∧
    (env.resolve WEBSITE_MOUNT = WEBSITE_MOUNT → env.accessOk WEBSITE_MOUNT = true →
        e = .badRequest "Website directory is not a git repository") := by
  refine ⟨?_, ?_, ?_, ?_⟩
  · unfold pullWebsiteUpdate
    rw [if_neg Bool.false_ne_true, h]
  · unfold pullWebsiteUpdate
    rw [if_neg Bool.false_ne_true, h]
  · intro hr
    unfold validateMountPoint at h
    rw [if_pos (by simpa using hr)] at h
    injection h with h'
    exact h'.symm
  · intro hr ha
    unfold validateMountPoint at h
    rw [if_neg (by simp [hr]), if_neg (by simp [hr, ha])] at h
    by_cases hg : env.accessOk (env.resolve WEBSITE_MOUNT ++ "/.git") = true
    · rw [if_neg (by simp [hg])] at h
      exact absurd h (by simp)
    · rw [if_pos (by simpa using hg)] at h
      injection h with h'
      exact h'.symm

/-- Witness for C3's amended theorem at the concrete no-metadata
environment. -/
theorem pullWebsiteUpdate_validation_failure_witness :
    (pullWebsiteUpdate false noGitEnv "admin" none 0).execs = [] :=
  (pullWebsiteUpdate_validation_failure noGitEnv "admin" none 0
    (.badRequest "Website directory is not a git repository") (by rfl)).1

/-- Fixture environment: validation passes, the pull itself fails (or
times out), and `git status --porcelain` fails as well. -/
def pullFailEnv : UpdaterEnv :=
  { resolve := fun p => p
    accessOk := fun _ => true
    pullResult := .error "not possible to fast-forward, aborting."
    revParseBefore := .ok "1111111"
    revParseAfter := .ok "1111111"
    revParseBranch := .ok "main"
    statusPorcelain := .error "unsafe repository"
    fetchHeadMtime := none }

/-- C8: once validation passes, a failing pull writes exactly one
WEBSITE_UPDATE_FAILED audit record carrying the error message and the
call re-raises as the UpdateFailed internal error; a succeeding run
writes exactly one WEBSITE_UPDATE record with before/after revisions and
the captured output, and returns success. -/
theorem pullWebsiteUpdate_audit_events
    (env : UpdaterEnv) (pid : String) (ip : Option String) (now : Nat)
    (h : validateMountPoint env WEBSITE_MOUNT = .ok ()) :
    (∀ msg, env.pullResult = .error msg →
        (pullWebsiteUpdate false env pid ip now).audits =
          [{ action := "WEBSITE_UPDATE_FAILED", resource := "WebsiteSource",
             newValue := [("error", msg)], performedById := some pid,
             ipAddress := ip }] ∧
        (pullWebsiteUpdate false env pid ip now).result =
          .error (.internalServerError ("Update failed: " ++ msg))) ∧
    (∀ stdout stderr, env.pullResult = .ok (stdout, stderr) →
        (pullWebsiteUpdate false env pid ip now).audits =
          [{ action := "WEBSITE_UPDATE", resource := "WebsiteSource",
             oldValue := [("commit", getGitCommit env.revParseBefore)],
             newValue := [("commit", getGitCommit env.revParseAfter),
                          ("branch", getGitBranch env.revParseBranch),
                          ("output", pullOutput stdout stderr)],
             performedById := some pid, ipAddress := ip }] ∧
        (pullWebsiteUpdate false env pid ip now).result =
          .ok { success := true, output := pullOutput stdout stderr,
                branch := getGitBranch env.revParseBranch,
                commit := getGitCommit env.revParseAfter, timestamp := now }) := by
  constructor
  · intro msg hm
    unfold pullWebsiteUpdate
    rw [if_neg Bool.false_ne_true, h]
    dsimp only
    rw [hm]
    exact ⟨rfl, rfl⟩
  · intro stdout stderr hm
    unfold pullWebsiteUpdate
    rw [if_neg Bool.false_ne_true, h]
    dsimp only
    rw [hm]
    exact ⟨rfl, rfl⟩

/-- Witness for C8: the failing-pull environment yields the
WEBSITE_UPDATE_FAILED record and the wrapped UpdateFailed error. -/
theorem pullWebsiteUpdate_audit_events_witness :
    (pullWebsiteUpdate false pullFailEnv "admin" none 0).result =
      .error (.internalServerError
        "Update failed: not possible to fast-forward, aborting.") :=
  ((pullWebsiteUpdate_audit_events pullFailEnv "admin" none 0 (by rfl)).1
    "not possible to fast-forward, aborting." (by rfl)).2

/-- C10: when `git status --porcelain` fails, `getWebsiteStatus` does
not raise; the failure is swallowed to empty output and the returned
record reports `isClean = true`. -/
theorem getWebsiteStatus_swallows_status_failure
    (env : UpdaterEnv) (msg : String)
    (h : validateMountPoint env WEBSITE_MOUNT = .ok ())
    (hs : env.statusPorcelain = .error msg) :
    getWebsiteStatus env =
      .ok { branch := getGitBranch env.revParseBranch,
            commit := getGitCommit env.revParseAfter,
            lastModified := env.fetchHeadMtime,
            isClean := true } := by
  unfold getWebsiteStatus
  rw [h]
  dsimp only
  rw [hs]
  rfl

/-- Witness for C10: the fixture whose status subprocess fails is
reported clean. -/
theorem getWebsiteStatus_swallows_status_failure_witness :
    getWebsiteStatus pullFailEnv =
      .ok { branch := "main", commit := "1111111", lastModified := none,
            isClean := true } :=
  getWebsiteStatus_swallows_status_failure pullFailEnv "unsafe repository"
    (by rfl) (by rfl)

end BBH
